import Mathlib

/-!
Verification of the watchtower resource cache and drift detector.

This file is a shallow embedding of the Go sources:
  * `resource_cache.go` (current revision): the six per-resource-type caches,
    `CFResourceCache`, `isValid`, `findRouteByURL`, `findDomainNameByGUID`,
    `getMappingResources`;
  * the drift detector (`Detector`): `enabledValidationFunctions`, `Validate`,
    `getMissingRoutes`, `getUnknownRoutes`, `validateApps`, `validateAppRoutes`,
    `validateAppSSH`, `validateSpaces`;
  * the `config` package: `Config`, `AppEntry`, `SpaceEntry`, `RouteEntry`
    with `Host`, `Domain` and `ContainsRoute`.

Go maps are embedded as association lists (`List (String × α)`) with
last-write-wins insertion (`insertKey`) and first-hit lookup (`lookupKey`);
maps built only through `insertKey` have distinct keys, matching Go map
semantics.  Go map indexing without the comma-ok form yields the zero value
of the element type; this is modelled explicitly with `Option.getD` and
per-type zero values.  Fetch operations that return `(list, error)` are
embedded as an `Except String (List α)` argument to the corresponding
`refresh` function.  Prometheus gauges/counters are embedded as a pure
`Metrics` record threaded through the validation functions; gauge `Set`
becomes field assignment and counter `Inc` becomes `+ 1` (the observed
values are small naturals, so `Nat` stands in for `float64`).
-/

/-- Association-list lookup, mirroring a Go map read `v, ok := m[k]`. -/
def lookupKey {α : Type} : List (String × α) → String → Option α
  | [], _ => none
  | (k, v) :: rest, q => if k = q then some v else lookupKey rest q

/-- Association-list insert with overwrite, mirroring a Go map write `m[k] = v`. -/
def insertKey {α : Type} : List (String × α) → String → α → List (String × α)
  | [], k, v => [(k, v)]
  | (k', v') :: rest, k, v =>
    if k' = k then (k, v) :: rest else (k', v') :: insertKey rest k v

/-- Build a GUID/name index from a fetched list, mirroring the Go loop
`for _, elem := range resourceList { m[key(elem)] = elem }`. -/
def buildIndex {α : Type} (key : α → String) (l : List α) : List (String × α) :=
  l.foldl (fun m e => insertKey m (key e) e) []

/-- cfclient.V3App (fields used by watchtower). -/
structure V3App where
  GUID : String
  Name : String
  deriving Repr, DecidableEq

/-- Zero value of `cfclient.V3App`. -/
def V3App.zero : V3App := ⟨"", ""⟩

/-- cfclient.Route (fields used by watchtower). -/
structure Route where
  Guid : String
  Host : String
  DomainGuid : String
  deriving Repr, DecidableEq

/-- Zero value of `cfclient.Route`. -/
def Route.zero : Route := ⟨"", "", ""⟩

/-- cfclient.RouteMapping (fields used by watchtower). -/
structure RouteMapping where
  Guid : String
  AppGUID : String
  RouteGUID : String
  deriving Repr, DecidableEq

/-- cfclient.Domain (fields used by watchtower). -/
structure Domain where
  Guid : String
  Name : String
  deriving Repr, DecidableEq

/-- Zero value of `cfclient.Domain`. -/
def Domain.zero : Domain := ⟨"", ""⟩

/-- cfclient.SharedDomain (fields used by watchtower). -/
structure SharedDomain where
  Guid : String
  Name : String
  deriving Repr, DecidableEq

/-- Zero value of `cfclient.SharedDomain`. -/
def SharedDomain.zero : SharedDomain := ⟨"", ""⟩

/-- cfclient.Space (fields used by watchtower). -/
structure Space where
  Guid : String
  Name : String
  AllowSSH : Bool
  deriving Repr, DecidableEq

/-- AppCache holds the most recently scraped CF App information.
The `sshMap` field is read by the detector via `cache.Apps.sshMap`;
its declaration is absent from the sources at hand.  Modelled from the
spec: an app-level SSH-status map, keyed by app name, value = SSH enabled. -/
structure AppCache where
  Valid : Bool
  apps : List V3App
  guidMap : List (String × V3App)
  nameMap : List (String × V3App)
  sshMap : List (String × Bool)
  deriving Repr, DecidableEq

/-- AppCache.refresh: the result of `client.ListV3AppsByQuery` is passed in as
an `Except`.  On error set `Valid = false` and return; on success rebuild
`guidMap`/`nameMap` from the fetched list and replace `apps`. -/
def AppCache.refresh (cache : AppCache) (result : Except String (List V3App)) :
    AppCache :=
  match result with
  | .error _ => { cache with Valid := false }
  | .ok resourceList =>
    { cache with
      apps := resourceList
      guidMap := buildIndex V3App.GUID resourceList
      nameMap := buildIndex V3App.Name resourceList
      Valid := true }

/-- RouteCache holds the most recently scraped CF Route information. -/
structure RouteCache where
  Valid : Bool
  routes : List Route
  guidMap : List (String × Route)
  deriving Repr, DecidableEq

/-- RouteCache.refresh, from `client.ListRoutes`. -/
def RouteCache.refresh (cache : RouteCache) (result : Except String (List Route)) :
    RouteCache :=
  match result with
  | .error _ => { cache with Valid := false }
  | .ok resourceList =>
    { cache with
      routes := resourceList
      guidMap := buildIndex Route.Guid resourceList
      Valid := true }

/-- RouteMappingCache holds the most recently scraped CF Route mapping
information. -/
structure RouteMappingCache where
  Valid : Bool
  routeMappings : List RouteMapping
  guidMap : List (String × RouteMapping)
  deriving Repr, DecidableEq

/-- RouteMappingCache.refresh, from `client.ListRouteMappings`.  The Go code
first dereferences the returned `[]*RouteMapping` into values; in a value
model that conversion is the identity, so the list is taken directly. -/
def RouteMappingCache.refresh (cache : RouteMappingCache)
    (result : Except String (List RouteMapping)) : RouteMappingCache :=
  match result with
  | .error _ => { cache with Valid := false }
  | .ok resourceList =>
    { cache with
      routeMappings := resourceList
      guidMap := buildIndex RouteMapping.Guid resourceList
      Valid := true }

/-- SharedDomainCache holds the most recently scraped CF SharedDomain
information. -/
structure SharedDomainCache where
  Valid : Bool
  domains : List SharedDomain
  guidMap : List (String × SharedDomain)
  nameMap : List (String × SharedDomain)
  deriving Repr, DecidableEq

/-- SharedDomainCache.refresh, from `client.ListSharedDomains`. -/
def SharedDomainCache.refresh (cache : SharedDomainCache)
    (result : Except String (List SharedDomain)) : SharedDomainCache :=
  match result with
  | .error _ => { cache with Valid := false }
  | .ok resourceList =>
    { cache with
      domains := resourceList
      guidMap := buildIndex SharedDomain.Guid resourceList
      nameMap := buildIndex SharedDomain.Name resourceList
      Valid := true }

/-- DomainCache holds the most recently scraped CF Domain information. -/
structure DomainCache where
  Valid : Bool
  domains : List Domain
  guidMap : List (String × Domain)
  nameMap : List (String × Domain)
  deriving Repr, DecidableEq

/-- DomainCache.refresh, from `client.ListDomains`. -/
def DomainCache.refresh (cache : DomainCache)
    (result : Except String (List Domain)) : DomainCache :=
  match result with
  | .error _ => { cache with Valid := false }
  | .ok resourceList =>
    { cache with
      domains := resourceList
      guidMap := buildIndex Domain.Guid resourceList
      nameMap := buildIndex Domain.Name resourceList
      Valid := true }

/-- SpaceCache holds the most recently scraped CF Space information. -/
structure SpaceCache where
  Valid : Bool
  spaces : List Space
  guidMap : List (String × Space)
  nameMap : List (String × Space)
  deriving Repr, DecidableEq

/-- SpaceCache.refresh, from `client.ListSpacesByQuery`. -/
def SpaceCache.refresh (cache : SpaceCache)
    (result : Except String (List Space)) : SpaceCache :=
  match result with
  | .error _ => { cache with Valid := false }
  | .ok resourceList =>
    { cache with
      spaces := resourceList
      guidMap := buildIndex Space.Guid resourceList
      nameMap := buildIndex Space.Name resourceList
      Valid := true }

/-- CFResourceCache aggregates the six per-resource-type caches. -/
structure CFResourceCache where
  Apps : AppCache
  Routes : RouteCache
  RouteMappings : RouteMappingCache
  Domains : DomainCache
  SharedDomains : SharedDomainCache
  Spaces : SpaceCache
  deriving Repr, DecidableEq

/-- isValid returns `true` if all sub-caches are valid, `false` otherwise. -/
def CFResourceCache.isValid (cache : CFResourceCache) : Bool :=
  cache.Apps.Valid &&
    cache.Routes.Valid &&
    cache.RouteMappings.Valid &&
    cache.Domains.Valid &&
    cache.SharedDomains.Valid &&
    cache.Spaces.Valid

/-- findRouteByURL returns a CF Route based on the Host+Domain.  Current
revision: the two domain lookups use plain Go map indexing
(`cache.SharedDomains.guidMap[route.DomainGuid]`), which yields the zero
value — a domain whose `Name` is the empty string — when the GUID is absent;
there is no missing-domain branch and no logging. -/
def CFResourceCache.findRouteByURL (cache : CFResourceCache) (host domain : String) :
    Option Route :=
  cache.Routes.routes.find? (fun route =>
    route.Host == host &&
      (((lookupKey cache.SharedDomains.guidMap route.DomainGuid).getD
          SharedDomain.zero).Name == domain ||
        ((lookupKey cache.Domains.guidMap route.DomainGuid).getD
          Domain.zero).Name == domain))

/-- findDomainNameByGUID checks the SharedDomain collection first, then the
private Domain collection; first hit wins. -/
def CFResourceCache.findDomainNameByGUID (cache : CFResourceCache) (guid : String) :
    Option String :=
  match lookupKey cache.SharedDomains.guidMap guid with
  | some domain => some domain.Name
  | none =>
    match lookupKey cache.Domains.guidMap guid with
    | some domain => some domain.Name
    | none => none

/-- getMappingResources returns the app, route, and domain name associated
with the given route mapping GUID, together with the error slot (Go's fourth
return value; `none` = nil error, `some msg` = `errors.New(msg)`). -/
def CFResourceCache.getMappingResources (cache : CFResourceCache)
    (mappingGUID : String) : V3App × Route × String × Option String :=
  match lookupKey cache.RouteMappings.guidMap mappingGUID with
  | none =>
    (V3App.zero, Route.zero, "",
      some ("RouteMapping with GUID " ++ mappingGUID ++ " not found in cache"))
  | some routeMapping =>
    match lookupKey cache.Routes.guidMap routeMapping.RouteGUID with
    | none =>
      (V3App.zero, Route.zero, "",
        some ("Route with GUID " ++ routeMapping.RouteGUID ++ " not found in cache"))
    | some route =>
      match cache.findDomainNameByGUID route.DomainGuid with
      | none =>
        (V3App.zero, Route.zero, "",
          some ("Domain with GUID " ++ route.DomainGuid ++ " not found in cache"))
      | some domainName =>
        match lookupKey cache.Apps.guidMap routeMapping.AppGUID with
        | none =>
          (V3App.zero, Route.zero, "",
            some ("App with GUID " ++ routeMapping.AppGUID ++ " not found in cache"))
        | some app => (app, route, domainName, none)

/-- RouteEntry: a route string `host.domain` from the `apps:resources:routes`
config key (Go: `type RouteEntry string`). -/
structure RouteEntry where
  val : String
  deriving Repr, DecidableEq

/-- RouteEntry.Host extracts the hostname: the part before the first dot
(Go: `strings.SplitN(string(*r), ".", 2)[0]`). -/
def RouteEntry.Host (r : RouteEntry) : String :=
  String.mk (r.val.data.takeWhile (fun c => c != '.'))

/-- RouteEntry.Domain extracts the domain: everything after the first dot
(Go: `strings.SplitN(string(*r), ".", 2)[1]`; that indexing panics on a
dotless entry, where this total model returns `""`). -/
def RouteEntry.Domain (r : RouteEntry) : String :=
  String.mk ((r.val.data.dropWhile (fun c => c != '.')).drop 1)

/-- AppEntry represents allowed values under the `apps:resources` config key. -/
structure AppEntry where
  Name : String
  Optional : Bool
  Routes : List RouteEntry
  SSHDisabled : Bool
  deriving Repr, DecidableEq

/-- ContainsRoute returns true if the AppEntry contains the specified route,
false otherwise. -/
def AppEntry.ContainsRoute (a : AppEntry) (route : String) : Bool :=
  a.Routes.any (fun routeEntry => routeEntry.val == route)

/-- SpaceEntry represents allowed values under the `spaces:resources` config
key. -/
structure SpaceEntry where
  Name : String
  AllowSSH : Bool
  deriving Repr, DecidableEq

/-- Config: the parsed watchtower configuration, as the detector reads it.
`AppEnabled`/`SpaceEnabled` stand for `Data.AppConfig.Enabled` and
`Data.SpaceConfig.Enabled`; `Apps`/`Spaces` are the name-keyed maps. -/
structure Config where
  AppEnabled : Bool
  SpaceEnabled : Bool
  Apps : List (String × AppEntry)
  Spaces : List (String × SpaceEntry)
  deriving Repr, DecidableEq

/-- Detector finds drift between deployed Cloud Foundry resources and the
config allow list. -/
structure Detector where
  cache : CFResourceCache
  config : Config
  deriving Repr, DecidableEq

/-- Metrics: the prometheus gauges and counters the detector exports. -/
structure Metrics where
  totalUnknownApps : Nat
  totalMissingApps : Nat
  totalUnknownRoutes : Nat
  totalMissingRoutes : Nat
  totalAppSSHViolations : Nat
  totalSpaceSSHViolations : Nat
  successfulAppChecks : Nat
  failedAppChecks : Nat
  successfulRouteChecks : Nat
  failedRouteChecks : Nat
  successfulAppSSHChecks : Nat
  failedAppSSHChecks : Nat
  successfulSpaceChecks : Nat
  failedSpaceChecks : Nat
  deriving Repr, DecidableEq

/-- getMissingRoutes returns the missing routes as strings of the form
`app_name:app_hostname.app_domain`.  A configured app's routes are checked
when `(app.Optional && appExists) || !app.Optional`. -/
def Detector.getMissingRoutes (detector : Detector) : List String :=
  detector.config.Apps.flatMap (fun p =>
    let app := p.2
    let appExists := (lookupKey detector.cache.Apps.nameMap p.1).isSome
    if (app.Optional && appExists) || !app.Optional then
      app.Routes.filterMap (fun route =>
        match detector.cache.findRouteByURL route.Host route.Domain with
        | some _ => none
        | none => some (app.Name ++ ":" ++ route.Host ++ "." ++ route.Domain))
    else [])

/-- getUnknownRoutes returns the unknown routes as strings of the form
`app_name:app_hostname.app_domain`: every RouteMapping is resolved with
getMappingResources; resolution failures and apps missing from the config
are skipped; otherwise the mapping is unknown when the resolved route URL is
not in the configured app's route list. -/
def Detector.getUnknownRoutes (detector : Detector) : List String :=
  detector.cache.RouteMappings.routeMappings.filterMap (fun mapping =>
    match detector.cache.getMappingResources mapping.Guid with
    | (_, _, _, some _) => none
    | (app, route, domainName, none) =>
      match lookupKey detector.config.Apps app.Name with
      | none => none
      | some configApp =>
        let routeURL := route.Host ++ "." ++ domainName
        if !configApp.ContainsRoute routeURL then some (app.Name ++ ":" ++ routeURL)
        else none)

/-- The `unknownApps` loop of validateApps: names in the deployed App name
index missing from the config app map. -/
def Detector.unknownApps (detector : Detector) : List String :=
  detector.cache.Apps.nameMap.filterMap (fun p =>
    match lookupKey detector.config.Apps p.1 with
    | some _ => none
    | none => some p.1)

/-- The `missingApps` loop of validateApps: non-optional configured names
missing from the deployed App name index. -/
def Detector.missingApps (detector : Detector) : List String :=
  detector.config.Apps.filterMap (fun p =>
    match lookupKey detector.cache.Apps.nameMap p.1 with
    | some _ => none
    | none => if !p.2.Optional then some p.1 else none)

/-- The `appSSHViolations` loop of validateAppSSH: a violation is flagged
for a configured app found deployed in `sshMap` exactly when
`expectedApp.SSHDisabled == enabled`. -/
def Detector.appSSHViolations (detector : Detector) : List String :=
  detector.config.Apps.filterMap (fun p =>
    match lookupKey detector.cache.Apps.sshMap p.1 with
    | none => none
    | some enabled => if p.2.SSHDisabled == enabled then some p.1 else none)

/-- The `spaceSSHViolations` counting loop of validateSpaces. -/
def Detector.spaceSSHViolations (detector : Detector) : Nat :=
  detector.cache.Spaces.nameMap.foldl
    (fun acc p =>
      match lookupKey detector.config.Spaces p.1 with
      | some spaceEntry => if p.2.AllowSSH != spaceEntry.AllowSSH then acc + 1 else acc
      | none => acc) 0

/-- validateApps performs CF App resource validation. -/
def Detector.validateApps (detector : Detector) (m : Metrics) : Metrics :=
  if !detector.cache.Apps.Valid then
    { m with failedAppChecks := m.failedAppChecks + 1 }
  else
    { m with
      totalUnknownApps := detector.unknownApps.length
      totalMissingApps := detector.missingApps.length
      successfulAppChecks := m.successfulAppChecks + 1 }

/-- validateAppRoutes performs CF App Route resource validation. -/
def Detector.validateAppRoutes (detector : Detector) (m : Metrics) : Metrics :=
  if !detector.cache.isValid then
    { m with failedRouteChecks := m.failedRouteChecks + 1 }
  else
    { m with
      totalUnknownRoutes := detector.getUnknownRoutes.length
      totalMissingRoutes := detector.getMissingRoutes.length
      successfulRouteChecks := m.successfulRouteChecks + 1 }

/-- validateAppSSH performs CF App SSH validation. -/
def Detector.validateAppSSH (detector : Detector) (m : Metrics) : Metrics :=
  if !detector.cache.Apps.Valid then
    { m with failedAppSSHChecks := m.failedAppSSHChecks + 1 }
  else
    { m with
      totalAppSSHViolations := detector.appSSHViolations.length
      successfulAppSSHChecks := m.successfulAppSSHChecks + 1 }

/-- validateSpaces verifies spaces against the provided config. -/
def Detector.validateSpaces (detector : Detector) (m : Metrics) : Metrics :=
  if !detector.cache.Spaces.Valid then
    { m with failedSpaceChecks := m.failedSpaceChecks + 1 }
  else
    { m with
      totalSpaceSSHViolations := detector.spaceSSHViolations
      successfulSpaceChecks := m.successfulSpaceChecks + 1 }

/-- enabledValidationFunctions: apps enabled contributes validateApps,
validateAppRoutes, validateAppSSH (in that order); spaces enabled
contributes validateSpaces. -/
def Detector.enabledValidationFunctions (detector : Detector) :
    List (Metrics → Metrics) :=
  (if detector.config.AppEnabled then
    [detector.validateApps, detector.validateAppRoutes, detector.validateAppSSH]
  else []) ++
    (if detector.config.SpaceEnabled then [detector.validateSpaces] else [])

/-- Validate runs every enabled validation function against the current
cache and config, updating the exported metrics.  The Go code fans the calls
out to goroutines joined by a WaitGroup; the functions update disjoint
metrics, so sequential composition is an equivalent model. -/
def Detector.Validate (detector : Detector) (m : Metrics) : Metrics :=
  detector.enabledValidationFunctions.foldl (fun acc f => f acc) m

/-- The all-zero metrics record (initial prometheus state). -/
def Metrics.zero : Metrics :=
  ⟨0, 0, 0, 0, 0, 0, 0, 0, 0, 0, 0, 0, 0, 0⟩

theorem lookupKey_insertKey {α : Type} (m : List (String × α)) (k q : String)
    (v : α) :
    lookupKey (insertKey m k v) q = if k = q then some v else lookupKey m q := by
  induction m with
  | nil => simp [insertKey, lookupKey]
  | cons hd tl ih =>
    obtain ⟨k', v'⟩ := hd
    by_cases h1 : k' = k
    · subst h1
      by_cases h2 : k' = q <;> simp [insertKey, lookupKey, h2]
    · by_cases h2 : k' = q
      · subst h2
        have h3 : ¬k = k' := fun h => h1 h.symm
        simp [insertKey, lookupKey, h1, h3]
      · simp [insertKey, lookupKey, h1, h2, ih]

theorem lookupKey_foldl_insertKey {α : Type} (key : α → String) (l : List α)
    (m : List (String × α)) (q : String) :
    lookupKey (l.foldl (fun acc e => insertKey acc (key e) e) m) q =
      match l.reverse.find? (fun e => key e == q) with
      | some e => some e
      | none => lookupKey m q := by
  induction l generalizing m with
  | nil => simp
  | cons hd tl ih =>
    simp only [List.foldl_cons, List.reverse_cons, List.find?_append, ih,
      lookupKey_insertKey]
    cases hfind : tl.reverse.find? (fun e => key e == q) with
    | some e => simp
    | none =>
      simp only [Option.none_or, List.find?]
      by_cases hk : key hd = q
      · simp [hk]
      · have : (key hd == q) = false := beq_eq_false_iff_ne.mpr hk
        simp [hk, this]

theorem lookupKey_buildIndex {α : Type} (key : α → String) (l : List α)
    (q : String) :
    lookupKey (buildIndex key l) q = l.reverse.find? (fun e => key e == q) := by
  rw [buildIndex, lookupKey_foldl_insertKey]
  cases l.reverse.find? (fun e => key e == q) <;> simp [lookupKey]

/-- C9: `isValid()` returns true iff all six collections' valid flags are
true, and setting any single one of the six flags to false makes `isValid()`
return false. -/
theorem C9_isValid_conjunction_and_flip (cache : CFResourceCache) :
    (cache.isValid = true ↔
      (cache.Apps.Valid = true ∧ cache.Routes.Valid = true ∧
        cache.RouteMappings.Valid = true ∧ cache.Domains.Valid = true ∧
        cache.SharedDomains.Valid = true ∧ cache.Spaces.Valid = true)) ∧
    CFResourceCache.isValid
      { cache with Apps := { cache.Apps with Valid := false } } = false ∧
    CFResourceCache.isValid
      { cache with Routes := { cache.Routes with Valid := false } } = false ∧
    CFResourceCache.isValid
      { cache with RouteMappings := { cache.RouteMappings with Valid := false } } = false ∧
    CFResourceCache.isValid
      { cache with Domains := { cache.Domains with Valid := false } } = false ∧
    CFResourceCache.isValid
      { cache with SharedDomains := { cache.SharedDomains with Valid := false } } = false ∧
    CFResourceCache.isValid
      { cache with Spaces := { cache.Spaces with Valid := false } } = false := by
  refine ⟨?_, ?_, ?_, ?_, ?_, ?_, ?_⟩ <;>
    simp [CFResourceCache.isValid, Bool.and_eq_true, and_assoc]

/-- C1: for each of the six resource collections, a refresh given a failed
list result leaves `items`/`byGUID`/`byName` exactly equal to their pre-call
values and sets `Valid` to false; a refresh given a successful list result
replaces `items` with the fetched list, rebuilds the indices wholesale from
it (a GUID/name lookup in the rebuilt index finds the last fetched element
with that key, independently of any pre-call contents), and sets `Valid` to
true. -/
theorem C1_refresh_failure_preserves_success_replaces
    (a : AppCache) (r : RouteCache) (rm : RouteMappingCache)
    (d : DomainCache) (sd : SharedDomainCache) (sp : SpaceCache)
    (e : String) (la : List V3App) (lr : List Route) (lrm : List RouteMapping)
    (ld : List Domain) (lsd : List SharedDomain) (lsp : List Space) :
    ((a.refresh (.error e)).apps = a.apps ∧
      (a.refresh (.error e)).guidMap = a.guidMap ∧
      (a.refresh (.error e)).nameMap = a.nameMap ∧
      (a.refresh (.error e)).Valid = false ∧
      (a.refresh (.ok la)).Valid = true ∧
      (a.refresh (.ok la)).apps = la ∧
      (∀ q, lookupKey (a.refresh (.ok la)).guidMap q =
        la.reverse.find? (fun x => x.GUID == q)) ∧
      (∀ q, lookupKey (a.refresh (.ok la)).nameMap q =
        la.reverse.find? (fun x => x.Name == q))) ∧
    ((r.refresh (.error e)).routes = r.routes ∧
      (r.refresh (.error e)).guidMap = r.guidMap ∧
      (r.refresh (.error e)).Valid = false ∧
      (r.refresh (.ok lr)).Valid = true ∧
      (r.refresh (.ok lr)).routes = lr ∧
      (∀ q, lookupKey (r.refresh (.ok lr)).guidMap q =
        lr.reverse.find? (fun x => x.Guid == q))) ∧
    ((rm.refresh (.error e)).routeMappings = rm.routeMappings ∧
      (rm.refresh (.error e)).guidMap = rm.guidMap ∧
      (rm.refresh (.error e)).Valid = false ∧
      (rm.refresh (.ok lrm)).Valid = true ∧
      (rm.refresh (.ok lrm)).routeMappings = lrm ∧
      (∀ q, lookupKey (rm.refresh (.ok lrm)).guidMap q =
        lrm.reverse.find? (fun x => x.Guid == q))) ∧
    ((d.refresh (.error e)).domains = d.domains ∧
      (d.refresh (.error e)).guidMap = d.guidMap ∧
      (d.refresh (.error e)).nameMap = d.nameMap ∧
      (d.refresh (.error e)).Valid = false ∧
      (d.refresh (.ok ld)).Valid = true ∧
      (d.refresh (.ok ld)).domains = ld ∧
      (∀ q, lookupKey (d.refresh (.ok ld)).guidMap q =
        ld.reverse.find? (fun x => x.Guid == q)) ∧
      (∀ q, lookupKey (d.refresh (.ok ld)).nameMap q =
        ld.reverse.find? (fun x => x.Name == q))) ∧
    ((sd.refresh (.error e)).domains = sd.domains ∧
      (sd.refresh (.error e)).guidMap = sd.guidMap ∧
      (sd.refresh (.error e)).nameMap = sd.nameMap ∧
      (sd.refresh (.error e)).Valid = false ∧
      (sd.refresh (.ok lsd)).Valid = true ∧
      (sd.refresh (.ok lsd)).domains = lsd ∧
      (∀ q, lookupKey (sd.refresh (.ok lsd)).guidMap q =
        lsd.reverse.find? (fun x => x.Guid == q)) ∧
      (∀ q, lookupKey (sd.refresh (.ok lsd)).nameMap q =
        lsd.reverse.find? (fun x => x.Name == q))) ∧
    ((sp.refresh (.error e)).spaces = sp.spaces ∧
      (sp.refresh (.error e)).guidMap = sp.guidMap ∧
      (sp.refresh (.error e)).nameMap = sp.nameMap ∧
      (sp.refresh (.error e)).Valid = false ∧
      (sp.refresh (.ok lsp)).Valid = true ∧
      (sp.refresh (.ok lsp)).spaces = lsp ∧
      (∀ q, lookupKey (sp.refresh (.ok lsp)).guidMap q =
        lsp.reverse.find? (fun x => x.Guid == q)) ∧
      (∀ q, lookupKey (sp.refresh (.ok lsp)).nameMap q =
        lsp.reverse.find? (fun x => x.Name == q))) := by
  refine ⟨⟨rfl, rfl, rfl, rfl, rfl, rfl, ?_, ?_⟩,
    ⟨rfl, rfl, rfl, rfl, rfl, ?_⟩,
    ⟨rfl, rfl, rfl, rfl, rfl, ?_⟩,
    ⟨rfl, rfl, rfl, rfl, rfl, rfl, ?_, ?_⟩,
    ⟨rfl, rfl, rfl, rfl, rfl, rfl, ?_, ?_⟩,
    ⟨rfl, rfl, rfl, rfl, rfl, rfl, ?_, ?_⟩⟩ <;>
    exact fun q => lookupKey_buildIndex _ _ q

theorem find?_congr_pred {α : Type} (p q : α → Bool) (l : List α)
    (hpq : ∀ x ∈ l, p x = q x) : l.find? p = l.find? q := by
  induction l with
  | nil => rfl
  | cons hd tl ih =>
    rw [List.find?_cons, List.find?_cons, hpq hd (List.mem_cons_self hd tl)]
    cases q hd with
    | true => rfl
    | false => exact ih (fun x hx => hpq x (List.mem_cons_of_mem hd hx))

/-- A route whose only route has host `"h"` and a domainGUID present in
neither domain collection. -/
def orphanRoute : Route := ⟨"route-1", "h", "dom-orphan"⟩

/-- A cache whose Route collection holds `orphanRoute` while both domain
collections are empty. -/
def orphanCache : CFResourceCache :=
  { Apps := ⟨true, [], [], [], []⟩
    Routes := ⟨true, [orphanRoute], [("route-1", orphanRoute)]⟩
    RouteMappings := ⟨true, [], []⟩
    Domains := ⟨true, [], [], []⟩
    SharedDomains := ⟨true, [], [], []⟩
    Spaces := ⟨true, [], [], []⟩ }

/-- C2 fails on the code as stated: `orphanRoute`'s domainGUID resolves in
neither domain collection, yet `findRouteByURL "h" ""` returns it as a
match — the current revision has no missing-domain branch (and no info-level
log); plain map indexing yields the zero-value domain whose name is the
empty string, which compares equal to the requested domain `""`. -/
theorem C2_counterexample :
    lookupKey orphanCache.SharedDomains.guidMap orphanRoute.DomainGuid = none ∧
    lookupKey orphanCache.Domains.guidMap orphanRoute.DomainGuid = none ∧
    orphanCache.Routes.routes = [orphanRoute] ∧
    orphanRoute.Host = "h" ∧
    orphanCache.findRouteByURL "h" "" = some orphanRoute := by
  refine ⟨rfl, rfl, rfl, rfl, ?_⟩
  decide

/-- The spec-worded match predicate for findRouteByURL: a route matches when
its host is the requested host and its domainGUID actually resolves, in the
shared or the private domain collection, to a domain named `d`. -/
def resolvedRouteMatch (cache : CFResourceCache) (h d : String) (r : Route) : Bool :=
  r.Host == h &&
    ((lookupKey cache.SharedDomains.guidMap r.DomainGuid).any
        (fun dom => dom.Name == d) ||
      (lookupKey cache.Domains.guidMap r.DomainGuid).any
        (fun dom => dom.Name == d))

/-- C2 amended: findRouteByURL returns not-found when no route has host `h`;
whenever the requested domain `d` is nonempty, it agrees with the first
route matching under actual domain resolution (`resolvedRouteMatch`) — in
particular it returns not-found when every route with host `h` resolves to
domain names different from `d`, and a route whose domainGUID resolves in
neither collection is skipped, without any logging.  (When `d` is the empty
string such an orphaned route is returned, per `C2_counterexample`.) -/
theorem C2_findRouteByURL_amended (cache : CFResourceCache) (h d : String) :
    ((∀ r ∈ cache.Routes.routes, r.Host ≠ h) →
      cache.findRouteByURL h d = none) ∧
    (d ≠ "" →
      (∀ r ∈ cache.Routes.routes, r.Host = h →
        (lookupKey cache.SharedDomains.guidMap r.DomainGuid).all
            (fun dom => dom.Name != d) = true ∧
          (lookupKey cache.Domains.guidMap r.DomainGuid).all
            (fun dom => dom.Name != d) = true) →
      cache.findRouteByURL h d = none) ∧
    (d ≠ "" →
      cache.findRouteByURL h d =
        cache.Routes.routes.find? (resolvedRouteMatch cache h d)) := by
  have hkey : d ≠ "" →
      cache.findRouteByURL h d =
        cache.Routes.routes.find? (resolvedRouteMatch cache h d) := by
    intro hd
    unfold CFResourceCache.findRouteByURL
    apply find?_congr_pred
    intro r _
    have hne : ("" == d) = false :=
      beq_eq_false_iff_ne.mpr (fun he => hd he.symm)
    unfold resolvedRouteMatch
    cases hs : lookupKey cache.SharedDomains.guidMap r.DomainGuid <;>
      cases hp : lookupKey cache.Domains.guidMap r.DomainGuid <;>
        simp [hs, hp, SharedDomain.zero, Domain.zero, Option.any, hne]
  refine ⟨?_, ?_, hkey⟩
  · intro hall
    unfold CFResourceCache.findRouteByURL
    rw [List.find?_eq_none]
    intro r hr
    have : (r.Host == h) = false := beq_eq_false_iff_ne.mpr (hall r hr)
    simp [this]
  · intro hd hall
    rw [hkey hd, List.find?_eq_none]
    intro r hr
    by_cases hh : r.Host = h
    · obtain ⟨h1, h2⟩ := hall r hr hh
      unfold resolvedRouteMatch
      cases hs : lookupKey cache.SharedDomains.guidMap r.DomainGuid <;>
        cases hp : lookupKey cache.Domains.guidMap r.DomainGuid <;>
          simp_all [Option.any, Option.all]
    · have : (r.Host == h) = false := beq_eq_false_iff_ne.mpr hh
      unfold resolvedRouteMatch
      simp [this]

/-- A cache with one route `web` under a shared domain named
`apps.example`. -/
def namedDomainCache : CFResourceCache :=
  { Apps := ⟨true, [], [], [], []⟩
    Routes := ⟨true, [⟨"r2", "web", "g1"⟩], [("r2", ⟨"r2", "web", "g1"⟩)]⟩
    RouteMappings := ⟨true, [], []⟩
    Domains := ⟨true, [], [], []⟩
    SharedDomains := ⟨true, [⟨"g1", "apps.example"⟩],
      [("g1", ⟨"g1", "apps.example"⟩)], [("apps.example", ⟨"g1", "apps.example"⟩)]⟩
    Spaces := ⟨true, [], [], []⟩ }

/-- Witness for C2's amended theorem at `namedDomainCache`. -/
theorem C2_findRouteByURL_amended_witness :
    namedDomainCache.findRouteByURL "nosuch" "apps.example" = none ∧
    namedDomainCache.findRouteByURL "web" "other.example" = none ∧
    namedDomainCache.findRouteByURL "web" "apps.example" =
      namedDomainCache.Routes.routes.find?
        (resolvedRouteMatch namedDomainCache "web" "apps.example") := by
  refine ⟨?_, ?_, ?_⟩
  · exact (C2_findRouteByURL_amended namedDomainCache "nosuch" "apps.example").1
      (by decide)
  · exact (C2_findRouteByURL_amended namedDomainCache "web" "other.example").2.1
      (by decide) (by decide)
  · exact (C2_findRouteByURL_amended namedDomainCache "web" "apps.example").2.2
      (by decide)

/-- C3: getMappingResources fails fast at the first missing link in the
fixed order RouteMapping, Route, Domain, App, each time with an error string
naming exactly that link and its GUID and zero-value App/Route/empty domain
name; the error is nil iff every link resolves, in which case the resolved
app, route and domain name are returned. -/
theorem C3_getMappingResources_fail_fast (cache : CFResourceCache) (g : String) :
    (lookupKey cache.RouteMappings.guidMap g = none →
      cache.getMappingResources g =
        (V3App.zero, Route.zero, "",
          some ("RouteMapping with GUID " ++ g ++ " not found in cache"))) ∧
    (∀ rm, lookupKey cache.RouteMappings.guidMap g = some rm →
      lookupKey cache.Routes.guidMap rm.RouteGUID = none →
      cache.getMappingResources g =
        (V3App.zero, Route.zero, "",
          some ("Route with GUID " ++ rm.RouteGUID ++ " not found in cache"))) ∧
    (∀ rm route, lookupKey cache.RouteMappings.guidMap g = some rm →
      lookupKey cache.Routes.guidMap rm.RouteGUID = some route →
      cache.findDomainNameByGUID route.DomainGuid = none →
      cache.getMappingResources g =
        (V3App.zero, Route.zero, "",
          some ("Domain with GUID " ++ route.DomainGuid ++ " not found in cache"))) ∧
    (∀ rm route domainName, lookupKey cache.RouteMappings.guidMap g = some rm →
      lookupKey cache.Routes.guidMap rm.RouteGUID = some route →
      cache.findDomainNameByGUID route.DomainGuid = some domainName →
      lookupKey cache.Apps.guidMap rm.AppGUID = none →
      cache.getMappingResources g =
        (V3App.zero, Route.zero, "",
          some ("App with GUID " ++ rm.AppGUID ++ " not found in cache"))) ∧
    (∀ rm route domainName app,
      lookupKey cache.RouteMappings.guidMap g = some rm →
      lookupKey cache.Routes.guidMap rm.RouteGUID = some route →
      cache.findDomainNameByGUID route.DomainGuid = some domainName →
      lookupKey cache.Apps.guidMap rm.AppGUID = some app →
      cache.getMappingResources g = (app, route, domainName, none)) ∧
    ((cache.getMappingResources g).2.2.2 = none ↔
      ∃ rm route domainName app,
        lookupKey cache.RouteMappings.guidMap g = some rm ∧
          lookupKey cache.Routes.guidMap rm.RouteGUID = some route ∧
          cache.findDomainNameByGUID route.DomainGuid = some domainName ∧
          lookupKey cache.Apps.guidMap rm.AppGUID = some app) ∧
    ((cache.getMappingResources g).2.2.2 ≠ none →
      (cache.getMappingResources g).1 = V3App.zero ∧
        (cache.getMappingResources g).2.1 = Route.zero ∧
        (cache.getMappingResources g).2.2.1 = "") := by
  refine ⟨?_, ?_, ?_, ?_, ?_, ?_, ?_⟩
  · intro h1
    simp [CFResourceCache.getMappingResources, h1]
  · intro rm h1 h2
    simp [CFResourceCache.getMappingResources, h1, h2]
  · intro rm route h1 h2 h3
    simp [CFResourceCache.getMappingResources, h1, h2, h3]
  · intro rm route domainName h1 h2 h3 h4
    simp [CFResourceCache.getMappingResources, h1, h2, h3, h4]
  · intro rm route domainName app h1 h2 h3 h4
    simp [CFResourceCache.getMappingResources, h1, h2, h3, h4]
  · constructor
    · intro herr
      cases h1 : lookupKey cache.RouteMappings.guidMap g with
      | none => simp [CFResourceCache.getMappingResources, h1] at herr
      | some rm =>
        cases h2 : lookupKey cache.Routes.guidMap rm.RouteGUID with
        | none => simp [CFResourceCache.getMappingResources, h1, h2] at herr
        | some route =>
          cases h3 : cache.findDomainNameByGUID route.DomainGuid with
          | none => simp [CFResourceCache.getMappingResources, h1, h2, h3] at herr
          | some domainName =>
            cases h4 : lookupKey cache.Apps.guidMap rm.AppGUID with
            | none =>
              simp [CFResourceCache.getMappingResources, h1, h2, h3, h4] at herr
            | some app => exact ⟨rm, route, domainName, app, rfl, h2, h3, h4⟩
    · rintro ⟨rm, route, domainName, app, h1, h2, h3, h4⟩
      simp [CFResourceCache.getMappingResources, h1, h2, h3, h4]
  · intro herr
    cases h1 : lookupKey cache.RouteMappings.guidMap g with
    | none => simp [CFResourceCache.getMappingResources, h1]
    | some rm =>
      cases h2 : lookupKey cache.Routes.guidMap rm.RouteGUID with
      | none => simp [CFResourceCache.getMappingResources, h1, h2]
      | some route =>
        cases h3 : cache.findDomainNameByGUID route.DomainGuid with
        | none => simp [CFResourceCache.getMappingResources, h1, h2, h3]
        | some domainName =>
          cases h4 : lookupKey cache.Apps.guidMap rm.AppGUID with
          | none => simp [CFResourceCache.getMappingResources, h1, h2, h3, h4]
          | some app =>
            exact absurd
              (by simp [CFResourceCache.getMappingResources, h1, h2, h3, h4])
              herr

/-- A cache in which the mapping `m1` fully resolves: mapping `m1` joins app
`a1` with route `r1`, whose domain GUID `g1` is a shared domain named
`apps.example`. -/
def resolvedCache : CFResourceCache :=
  { Apps := ⟨true, [⟨"a1", "web"⟩], [("a1", ⟨"a1", "web"⟩)],
      [("web", ⟨"a1", "web"⟩)], [("web", true)]⟩
    Routes := ⟨true, [⟨"r1", "web", "g1"⟩], [("r1", ⟨"r1", "web", "g1"⟩)]⟩
    RouteMappings := ⟨true, [⟨"m1", "a1", "r1"⟩], [("m1", ⟨"m1", "a1", "r1"⟩)]⟩
    Domains := ⟨true, [], [], []⟩
    SharedDomains := ⟨true, [⟨"g1", "apps.example"⟩],
      [("g1", ⟨"g1", "apps.example"⟩)], [("apps.example", ⟨"g1", "apps.example"⟩)]⟩
    Spaces := ⟨true, [], [], []⟩ }

/-- Witness for C3 at `resolvedCache`: every link of mapping `m1` resolves
and the resolved triple is returned with a nil error, while the unknown
mapping GUID `mX` yields the RouteMapping error. -/
theorem C3_getMappingResources_fail_fast_witness :
    resolvedCache.getMappingResources "m1" =
      (⟨"a1", "web"⟩, ⟨"r1", "web", "g1"⟩, "apps.example", none) ∧
    resolvedCache.getMappingResources "mX" =
      (V3App.zero, Route.zero, "",
        some ("RouteMapping with GUID " ++ "mX" ++ " not found in cache")) := by
  constructor
  · exact (C3_getMappingResources_fail_fast resolvedCache "m1").2.2.2.2.1
      ⟨"m1", "a1", "r1"⟩ ⟨"r1", "web", "g1"⟩ "apps.example" ⟨"a1", "web"⟩
      (by decide) (by decide) (by decide) (by decide)
  · exact (C3_getMappingResources_fail_fast resolvedCache "mX").1 (by decide)

/-- A cache whose six collections are all valid and empty. -/
def baseCache : CFResourceCache :=
  { Apps := ⟨true, [], [], [], []⟩
    Routes := ⟨true, [], []⟩
    RouteMappings := ⟨true, [], []⟩
    Domains := ⟨true, [], [], []⟩
    SharedDomains := ⟨true, [], [], []⟩
    Spaces := ⟨true, [], [], []⟩ }

/-- Deployed apps {A, B}; config {A: required, C: optional}. -/
def exampleDetector1 : Detector :=
  { cache :=
      { baseCache with
        Apps := ⟨true, [⟨"ga", "A"⟩, ⟨"gb", "B"⟩],
          [("ga", ⟨"ga", "A"⟩), ("gb", ⟨"gb", "B"⟩)],
          [("A", ⟨"ga", "A"⟩), ("B", ⟨"gb", "B"⟩)], []⟩ }
    config := ⟨true, false,
      [("A", ⟨"A", false, [], false⟩), ("C", ⟨"C", true, [], false⟩)], []⟩ }

/-- Deployed apps {}; config {A: required}. -/
def exampleDetector2 : Detector :=
  { cache := baseCache
    config := ⟨true, false, [("A", ⟨"A", false, [], false⟩)], []⟩ }

/-- C4: with a valid App collection, validateApps exports as gauges the
sizes of `unknownApps` — exactly the names in the deployed name index absent
from the config app map — and `missingApps` — exactly the non-optional
configured names absent from the deployed name index; deployed {A,B} against
config {A: required, C: optional} yields unknown {B} and missing {}, and
deployed {} against config {A: required} yields missing {A}. -/
theorem C4_validateApps_unknown_missing (detector : Detector) (m : Metrics)
    (hvalid : detector.cache.Apps.Valid = true) :
    (detector.validateApps m).totalUnknownApps = detector.unknownApps.length ∧
    (detector.validateApps m).totalMissingApps = detector.missingApps.length ∧
    (∀ name, name ∈ detector.unknownApps ↔
      ((∃ app, (name, app) ∈ detector.cache.Apps.nameMap) ∧
        lookupKey detector.config.Apps name = none)) ∧
    (∀ name, name ∈ detector.missingApps ↔
      ∃ entry, (name, entry) ∈ detector.config.Apps ∧ entry.Optional = false ∧
        lookupKey detector.cache.Apps.nameMap name = none) ∧
    exampleDetector1.unknownApps = ["B"] ∧
    exampleDetector1.missingApps = [] ∧
    exampleDetector2.missingApps = ["A"] := by
  refine ⟨?_, ?_, ?_, ?_, by decide, by decide, by decide⟩
  · simp [Detector.validateApps, hvalid]
  · simp [Detector.validateApps, hvalid]
  · intro name
    simp only [Detector.unknownApps, List.mem_filterMap]
    constructor
    · rintro ⟨⟨k, v⟩, hmem, hf⟩
      cases hl : lookupKey detector.config.Apps k with
      | some entry => simp [hl] at hf
      | none =>
        simp only [hl] at hf
        obtain rfl : k = name := by simpa using hf
        exact ⟨⟨v, hmem⟩, hl⟩
    · rintro ⟨⟨app, hmem⟩, hl⟩
      exact ⟨(name, app), hmem, by simp [hl]⟩
  · intro name
    simp only [Detector.missingApps, List.mem_filterMap]
    constructor
    · rintro ⟨⟨k, entry⟩, hmem, hf⟩
      cases hl : lookupKey detector.cache.Apps.nameMap k with
      | some app => simp [hl] at hf
      | none =>
        simp only [hl] at hf
        by_cases hopt : entry.Optional <;> simp [hopt] at hf
        obtain rfl : k = name := hf
        exact ⟨entry, hmem, by simpa using hopt, hl⟩
    · rintro ⟨entry, hmem, hopt, hl⟩
      exact ⟨(name, entry), hmem, by simp [hl, hopt]⟩

/-- Witness for C4 at `exampleDetector1` with the all-zero metrics. -/
theorem C4_validateApps_unknown_missing_witness :
    (exampleDetector1.validateApps Metrics.zero).totalUnknownApps =
      exampleDetector1.unknownApps.length ∧
    exampleDetector1.unknownApps = ["B"] ∧
    exampleDetector1.missingApps = [] := by
  have h := C4_validateApps_unknown_missing exampleDetector1 Metrics.zero rfl
  exact ⟨h.1, h.2.2.2.2.1, h.2.2.2.2.2.1⟩

/-- C5: an entry is in getMissingRoutes exactly when some configured app —
non-optional, or optional but present in the deployed App name index — has a
configured route that findRouteByURL(host, domain) does not find, the entry
being `appName:host.domain`; in particular an optional app with no deployed
instance contributes no entries. -/
theorem C5_getMissingRoutes_membership (detector : Detector) (entry : String) :
    entry ∈ detector.getMissingRoutes ↔
      ∃ name app, (name, app) ∈ detector.config.Apps ∧
        (app.Optional = false ∨
          (lookupKey detector.cache.Apps.nameMap name).isSome = true) ∧
        ∃ r ∈ app.Routes,
          detector.cache.findRouteByURL r.Host r.Domain = none ∧
          entry = app.Name ++ ":" ++ r.Host ++ "." ++ r.Domain := by
  simp only [Detector.getMissingRoutes, List.mem_flatMap]
  constructor
  · rintro ⟨⟨name, app⟩, hmem, hin⟩
    simp only at hin
    by_cases hcond :
        ((app.Optional && (lookupKey detector.cache.Apps.nameMap name).isSome) ||
          !app.Optional) = true
    · rw [if_pos hcond] at hin
      obtain ⟨r, hr, hf⟩ := List.mem_filterMap.mp hin
      cases hfind : detector.cache.findRouteByURL r.Host r.Domain with
      | some route => simp [hfind] at hf
      | none =>
        simp only [hfind] at hf
        obtain rfl : app.Name ++ ":" ++ r.Host ++ "." ++ r.Domain = entry := by
          simpa using hf
        refine ⟨name, app, hmem, ?_, r, hr, hfind, rfl⟩
        cases hopt : app.Optional with
        | false => exact Or.inl rfl
        | true =>
          refine Or.inr ?_
          simpa [hopt] using hcond
    · rw [if_neg hcond] at hin
      simp at hin
  · rintro ⟨name, app, hmem, hcond, r, hr, hfind, rfl⟩
    refine ⟨(name, app), hmem, ?_⟩
    simp only
    have hcondtrue :
        ((app.Optional && (lookupKey detector.cache.Apps.nameMap name).isSome) ||
          !app.Optional) = true := by
      rcases hcond with hopt | hex
      · simp [hopt]
      · cases app.Optional <;> simp [hex]
    rw [if_pos hcondtrue]
    exact List.mem_filterMap.mpr ⟨r, hr, by simp [hfind]⟩

/-- Config app web with the single route web.apps.example, against an empty
(but valid) deployed cache. -/
def exampleDetectorRoutes : Detector :=
  { cache := baseCache
    config := ⟨true, false,
      [("web", ⟨"web", false, [⟨"web.apps.example"⟩], false⟩)], []⟩ }

/-- Witness for C5 at `exampleDetectorRoutes`: no deployed route matches, so
the missing-route entry `web:web.apps.example` is produced. -/
theorem C5_getMissingRoutes_membership_witness :
    "web:web.apps.example" ∈ exampleDetectorRoutes.getMissingRoutes := by
  refine (C5_getMissingRoutes_membership exampleDetectorRoutes
    "web:web.apps.example").mpr ?_
  exact ⟨"web", ⟨"web", false, [⟨"web.apps.example"⟩], false⟩, by decide,
    Or.inl rfl, ⟨"web.apps.example"⟩, by decide, rfl, by decide⟩

/-- C6: an entry is in getUnknownRoutes exactly when some RouteMapping in
the collection resolves through getMappingResources with a nil error, the
resolved app's name is found in the config app map, and the configured app
does not contain the resolved route string `host.domainName`; mappings that
fail resolution or whose app is not configured are skipped. -/
theorem C6_getUnknownRoutes_membership (detector : Detector) (entry : String) :
    entry ∈ detector.getUnknownRoutes ↔
      ∃ mapping ∈ detector.cache.RouteMappings.routeMappings,
        ∃ app route domainName,
          detector.cache.getMappingResources mapping.Guid =
            (app, route, domainName, none) ∧
          ∃ configApp,
            lookupKey detector.config.Apps app.Name = some configApp ∧
              configApp.ContainsRoute (route.Host ++ "." ++ domainName) = false ∧
              entry = app.Name ++ ":" ++ route.Host ++ "." ++ domainName := by
  simp only [Detector.getUnknownRoutes, List.mem_filterMap]
  constructor
  · rintro ⟨mapping, hmem, hf⟩
    rcases hres : detector.cache.getMappingResources mapping.Guid with
      ⟨app, route, domainName, err⟩
    rw [hres] at hf
    cases err with
    | some msg => simp at hf
    | none =>
      simp only at hf
      cases hlook : lookupKey detector.config.Apps app.Name with
      | none => simp [hlook] at hf
      | some configApp =>
        simp only [hlook] at hf
        by_cases hcr : configApp.ContainsRoute (route.Host ++ "." ++ domainName)
        · simp [hcr] at hf
        · refine ⟨mapping, hmem, app, route, domainName, hres, configApp, hlook,
            by simpa using hcr, ?_⟩
          simp [hcr] at hf
          rw [← hf]
          simp [String.append_assoc]
  · rintro ⟨mapping, hmem, app, route, domainName, hres, configApp, hlook, hcr, rfl⟩
    refine ⟨mapping, hmem, ?_⟩
    rw [hres]
    have hcr2 : configApp.ContainsRoute (route.Host ++ ("." ++ domainName)) = false := by
      simpa [String.append_assoc] using hcr
    simp [hlook, hcr, hcr2, String.append_assoc]

/-- Config app web with no configured routes, against `resolvedCache`, whose
mapping `m1` resolves to app web and route URL `web.apps.example`. -/
def exampleDetectorUnknown : Detector :=
  { cache := resolvedCache
    config := ⟨true, false, [("web", ⟨"web", false, [], false⟩)], []⟩ }

/-- Witness for C6 at `exampleDetectorUnknown`: mapping m1 resolves to the
configured app web but its route `web.apps.example` is not configured, so
the unknown-route entry `web:web.apps.example` is produced. -/
theorem C6_getUnknownRoutes_membership_witness :
    "web:web.apps.example" ∈ exampleDetectorUnknown.getUnknownRoutes := by
  refine (C6_getUnknownRoutes_membership exampleDetectorUnknown
    "web:web.apps.example").mpr ?_
  exact ⟨⟨"m1", "a1", "r1"⟩, by decide, ⟨"a1", "web"⟩, ⟨"r1", "web", "g1"⟩,
    "apps.example", by decide, ⟨"web", false, [], false⟩, by decide, by decide,
    by decide⟩

/-- C7: with a valid App collection, validateAppSSH exports as its gauge the
size of `appSSHViolations`, which holds exactly the configured app names
present in the deployed SSH-status map whose configured SSHDisabled flag
equals the observed SSH-enabled value; configured apps absent from the SSH
map are never flagged. -/
theorem C7_validateAppSSH_flags (detector : Detector) (m : Metrics)
    (hvalid : detector.cache.Apps.Valid = true) :
    (detector.validateAppSSH m).totalAppSSHViolations =
      detector.appSSHViolations.length ∧
    ∀ name, name ∈ detector.appSSHViolations ↔
      ∃ entry, (name, entry) ∈ detector.config.Apps ∧
        ∃ enabled, lookupKey detector.cache.Apps.sshMap name = some enabled ∧
          entry.SSHDisabled = enabled := by
  refine ⟨by simp [Detector.validateAppSSH, hvalid], ?_⟩
  intro name
  simp only [Detector.appSSHViolations, List.mem_filterMap]
  constructor
  · rintro ⟨⟨k, entry⟩, hmem, hf⟩
    cases hl : lookupKey detector.cache.Apps.sshMap k with
    | none => simp [hl] at hf
    | some enabled =>
      simp only [hl] at hf
      by_cases hssh : entry.SSHDisabled == enabled <;> simp [hssh] at hf
      obtain rfl : k = name := hf
      exact ⟨entry, hmem, enabled, hl, by simpa using hssh⟩
  · rintro ⟨entry, hmem, enabled, hl, hssh⟩
    exact ⟨(name, entry), hmem, by simp [hl, hssh]⟩

/-- Config {web: ssh_disabled} against the deployed SSH map of
`resolvedCache`, where app `web` reports SSH enabled. -/
def exampleDetectorSSH : Detector :=
  { cache := resolvedCache
    config := ⟨true, false, [("web", ⟨"web", false, [], true⟩)], []⟩ }

/-- Witness for C7 at `exampleDetectorSSH` with the all-zero metrics. -/
theorem C7_validateAppSSH_flags_witness :
    (exampleDetectorSSH.validateAppSSH Metrics.zero).totalAppSSHViolations =
      exampleDetectorSSH.appSSHViolations.length ∧
    "web" ∈ exampleDetectorSSH.appSSHViolations := by
  have h := C7_validateAppSSH_flags exampleDetectorSSH Metrics.zero rfl
  refine ⟨h.1, (h.2 "web").mpr ?_⟩
  exact ⟨⟨"web", false, [], true⟩, by decide, true, by decide, rfl⟩

theorem foldl_count_filter {α : Type} (g : α → Bool) (l : List α) (acc : Nat) :
    l.foldl (fun acc x => if g x then acc + 1 else acc) acc =
      acc + (l.filter g).length := by
  induction l generalizing acc with
  | nil => simp
  | cons hd tl ih =>
    rw [List.foldl_cons, List.filter_cons]
    by_cases hg : g hd = true
    · rw [if_pos hg, if_pos hg, ih, List.length_cons]
      omega
    · rw [if_neg hg, if_neg hg, ih]

/-- Deployed spaces dev (SSH allowed) and prod, config lists only
`dev: allow_ssh false`. -/
def exampleSpaceDetector : Detector :=
  { cache :=
      { baseCache with
        Spaces := ⟨true, [⟨"gs", "dev", true⟩, ⟨"gt", "prod", true⟩],
          [("gs", ⟨"gs", "dev", true⟩), ("gt", ⟨"gt", "prod", true⟩)],
          [("dev", ⟨"gs", "dev", true⟩), ("prod", ⟨"gt", "prod", true⟩)]⟩ }
    config := ⟨false, true, [], [("dev", ⟨"dev", false⟩)]⟩ }

/-- C8: with a valid Space collection, validateSpaces exports a violation
count equal to the number of deployed spaces whose name is found in the
config space map and whose deployed allowSSH differs from the configured
one; deployed space dev with allowSSH=true against config dev:
allowSSH=false (with prod absent from config) yields exactly one
violation. -/
theorem C8_validateSpaces_count (detector : Detector) (m : Metrics)
    (hvalid : detector.cache.Spaces.Valid = true) :
    (detector.validateSpaces m).totalSpaceSSHViolations =
      detector.spaceSSHViolations ∧
    detector.spaceSSHViolations =
      (detector.cache.Spaces.nameMap.filter (fun p =>
        match lookupKey detector.config.Spaces p.1 with
        | some spaceEntry => p.2.AllowSSH != spaceEntry.AllowSSH
        | none => false)).length ∧
    exampleSpaceDetector.spaceSSHViolations = 1 := by
  refine ⟨by simp [Detector.validateSpaces, hvalid], ?_, by decide⟩
  rw [Detector.spaceSSHViolations]
  have hfold :
      detector.cache.Spaces.nameMap.foldl
        (fun acc p =>
          match lookupKey detector.config.Spaces p.1 with
          | some spaceEntry =>
            if p.2.AllowSSH != spaceEntry.AllowSSH then acc + 1 else acc
          | none => acc) 0 =
      detector.cache.Spaces.nameMap.foldl
        (fun acc p =>
          if (match lookupKey detector.config.Spaces p.1 with
            | some spaceEntry => p.2.AllowSSH != spaceEntry.AllowSSH
            | none => false) then acc + 1 else acc) 0 := by
    apply List.foldl_ext
    intro a p _
    cases hl : lookupKey detector.config.Spaces p.1 <;> simp [hl]
  rw [hfold, foldl_count_filter]
  simp

/-- Witness for C8 at `exampleSpaceDetector` with the all-zero metrics. -/
theorem C8_validateSpaces_count_witness :
    (exampleSpaceDetector.validateSpaces Metrics.zero).totalSpaceSSHViolations =
      exampleSpaceDetector.spaceSSHViolations ∧
    exampleSpaceDetector.spaceSSHViolations = 1 := by
  have h := C8_validateSpaces_count exampleSpaceDetector Metrics.zero rfl
  exact ⟨h.1, h.2.2⟩

/-- C10: for every fixed cache and config, running Validate twice with no
intervening Refresh produces identical gauge values after each run and
identical per-category counter deltas in both runs; each enabled category's
success-or-failure counters together grow by exactly one per run. -/
theorem C10_Validate_idempotent (detector : Detector) (m : Metrics) :
    ((detector.Validate (detector.Validate m)).totalUnknownApps =
        (detector.Validate m).totalUnknownApps ∧
      (detector.Validate (detector.Validate m)).totalMissingApps =
        (detector.Validate m).totalMissingApps ∧
      (detector.Validate (detector.Validate m)).totalUnknownRoutes =
        (detector.Validate m).totalUnknownRoutes ∧
      (detector.Validate (detector.Validate m)).totalMissingRoutes =
        (detector.Validate m).totalMissingRoutes ∧
      (detector.Validate (detector.Validate m)).totalAppSSHViolations =
        (detector.Validate m).totalAppSSHViolations ∧
      (detector.Validate (detector.Validate m)).totalSpaceSSHViolations =
        (detector.Validate m).totalSpaceSSHViolations) ∧
    ((detector.Validate (detector.Validate m)).successfulAppChecks -
        (detector.Validate m).successfulAppChecks =
      (detector.Validate m).successfulAppChecks - m.successfulAppChecks ∧
      (detector.Validate (detector.Validate m)).failedAppChecks -
        (detector.Validate m).failedAppChecks =
      (detector.Validate m).failedAppChecks - m.failedAppChecks ∧
      (detector.Validate (detector.Validate m)).successfulRouteChecks -
        (detector.Validate m).successfulRouteChecks =
      (detector.Validate m).successfulRouteChecks - m.successfulRouteChecks ∧
      (detector.Validate (detector.Validate m)).failedRouteChecks -
        (detector.Validate m).failedRouteChecks =
      (detector.Validate m).failedRouteChecks - m.failedRouteChecks ∧
      (detector.Validate (detector.Validate m)).successfulAppSSHChecks -
        (detector.Validate m).successfulAppSSHChecks =
      (detector.Validate m).successfulAppSSHChecks - m.successfulAppSSHChecks ∧
      (detector.Validate (detector.Validate m)).failedAppSSHChecks -
        (detector.Validate m).failedAppSSHChecks =
      (detector.Validate m).failedAppSSHChecks - m.failedAppSSHChecks ∧
      (detector.Validate (detector.Validate m)).successfulSpaceChecks -
        (detector.Validate m).successfulSpaceChecks =
      (detector.Validate m).successfulSpaceChecks - m.successfulSpaceChecks ∧
      (detector.Validate (detector.Validate m)).failedSpaceChecks -
        (detector.Validate m).failedSpaceChecks =
      (detector.Validate m).failedSpaceChecks - m.failedSpaceChecks) ∧
    (detector.config.AppEnabled = true →
      (detector.Validate m).successfulAppChecks +
          (detector.Validate m).failedAppChecks =
        m.successfulAppChecks + m.failedAppChecks + 1 ∧
      (detector.Validate m).successfulRouteChecks +
          (detector.Validate m).failedRouteChecks =
        m.successfulRouteChecks + m.failedRouteChecks + 1 ∧
      (detector.Validate m).successfulAppSSHChecks +
          (detector.Validate m).failedAppSSHChecks =
        m.successfulAppSSHChecks + m.failedAppSSHChecks + 1) ∧
    (detector.config.SpaceEnabled = true →
      (detector.Validate m).successfulSpaceChecks +
          (detector.Validate m).failedSpaceChecks =
        m.successfulSpaceChecks + m.failedSpaceChecks + 1) := by
  cases hA : detector.config.AppEnabled <;>
    cases hS : detector.config.SpaceEnabled <;>
      by_cases h1 : detector.cache.Apps.Valid = true <;>
        by_cases h2 : detector.cache.isValid = true <;>
          by_cases h3 : detector.cache.Spaces.Valid = true <;>
            simp [Detector.Validate, Detector.enabledValidationFunctions, hA, hS,
              Detector.validateApps, Detector.validateAppRoutes,
              Detector.validateAppSSH, Detector.validateSpaces, h1, h2, h3,
              Bool.not_eq_true] at * <;>
              omega

/-- Both check categories enabled over the empty valid cache. -/
def exampleDetectorFull : Detector :=
  { cache := baseCache, config := ⟨true, true, [], []⟩ }

/-- Witness for C10 at `exampleDetectorFull` with the all-zero metrics. -/
theorem C10_Validate_idempotent_witness :
    (exampleDetectorFull.Validate Metrics.zero).successfulAppChecks +
        (exampleDetectorFull.Validate Metrics.zero).failedAppChecks =
      Metrics.zero.successfulAppChecks + Metrics.zero.failedAppChecks + 1 ∧
    (exampleDetectorFull.Validate Metrics.zero).successfulSpaceChecks +
        (exampleDetectorFull.Validate Metrics.zero).failedSpaceChecks =
      Metrics.zero.successfulSpaceChecks + Metrics.zero.failedSpaceChecks + 1 := by
  have h := C10_Validate_idempotent exampleDetectorFull Metrics.zero
  exact ⟨(h.2.2.1 rfl).1, h.2.2.2 rfl⟩
